import Mathlib

/-!
Verification development for the jiosaavn-downloader repository.

The repository contains two historical variants of the downloader:
`src/` (module style: `utils.py`, `downloader.py`, `metadata.py`, `main.py`)
and `jiosaavn_downloader/` (class style: `downloader.py`, `metadata.py`,
`utils.py`) driven by the top-level `main.py`.  The definitions below are
shallow embeddings of the pure decision logic of those files; external
effects (subprocess exit codes, filesystem queries) are passed in as
explicit oracle parameters.
-/

set_option maxRecDepth 8192

namespace JioSaavn

/-! ## Filename sanitization

`src/src/utils.py`:

  def sanitize(name: str) -> str:
      return re.sub(r'[\\/:*?"<>|]+', "_", name).strip()

`jiosaavn_downloader/downloader.py` (search_and_download):

  safe_title = re.sub(r'[<>:"/\\|?*]', '', song_info['title'])

Both regex character classes denote the same nine characters.
-/

/-- The nine characters disallowed in filenames by both sanitizers. -/
def disallowedChar (c : Char) : Bool :=
  c == '\\' || c == '/' || c == ':' || c == '*' || c == '?' ||
  c == '"' || c == '<' || c == '>' || c == '|'

/-- Whitespace stripped by Python str.strip (ASCII subset; the inputs in
this development are ASCII). -/
def isPySpace (c : Char) : Bool :=
  c == ' ' || c == '\t' || c == '\n' || c == '\r' ||
  c == Char.ofNat 11 || c == Char.ofNat 12

/-- One pass of re.sub with pattern `[\\/:*?"<>|]+` and replacement "_":
each maximal run of disallowed characters collapses to a single
underscore.  The boolean flag records whether the previous character was
part of a disallowed run. -/
def subDisAux : Bool → List Char → List Char
  | _, [] => []
  | inRun, c :: cs =>
    if disallowedChar c then
      (if inRun then subDisAux true cs else '_' :: subDisAux true cs)
    else c :: subDisAux false cs

/-- Python str.strip: drop leading and trailing whitespace. -/
def stripChars (l : List Char) : List Char :=
  ((l.dropWhile isPySpace).reverse.dropWhile isPySpace).reverse

/-- sanitize from src/src/utils.py: regex substitution followed by strip. -/
def sanitize (s : String) : String :=
  String.mk (stripChars (subDisAux false s.data))

/-- The sanitizer of jiosaavn_downloader/downloader.py: the same character
class with empty replacement and no strip, i.e. plain removal. -/
def safeName (s : String) : String :=
  String.mk (s.data.filter (fun c => !disallowedChar c))

/-! ## Track metadata model

Entries are the JSON dictionaries produced by the yt-dlp probe
(`probe_info` in src/src/utils.py).  Absent keys are `none`; Python
truthiness of a present string is emptiness, of a present number is
being nonzero.  `artists` items are either plain strings or dicts
carrying a name (Python of `a.get("name", a)`; a dict without a name key
would make the later join raise, so only named dicts are modelled). -/

inductive ArtistItem where
  | astr (s : String)
  | adict (name : String)
deriving DecidableEq

/-- Python str() applied to a list item in pick_artists:
`a.get("name", a) if isinstance(a, dict) else str(a)`. -/
def pickItem : ArtistItem → String
  | .astr s => s
  | .adict n => n

structure Entry where
  artist : Option String := none
  artists : Option (List ArtistItem) := none
  creator : Option String := none
  album : Option String := none
  album_name : Option String := none
  playlist : Option String := none
  series : Option String := none
  title : Option String := none
  track : Option String := none
  track_number : Option Nat := none
  playlist_index : Option Nat := none
  playlist_autonumber : Option Nat := none
  typ : Option String := none
  n_entries : Nat := 0
  webpage_url : Option String := none
  url : Option String := none
deriving DecidableEq

/-- meta.get(key) restricted to truthy strings: a present empty string is
falsy in Python, hence treated like an absent key. -/
def tstr : Option String → Option String
  | some s => if s = "" then none else some s
  | none => none

/-- meta.get(key) restricted to truthy numbers: a present 0 is falsy. -/
def natTruthy : Option Nat → Option Nat
  | some n => if n = 0 then none else some n
  | none => none

/-- pick_artists from src/src/utils.py. -/
def pick_artists (e : Entry) : List String :=
  match tstr e.artist with
  | some a => [a]
  | none =>
    match e.artists with
    | some items =>
      if items = [] then
        match tstr e.creator with
        | some c => [c]
        | none => ["Unknown Artist"]
      else items.map pickItem
    | none =>
      match tstr e.creator with
      | some c => [c]
      | none => ["Unknown Artist"]

/-- choose_outputs line: artist = "; ".join(artist_list) if artist_list else None. -/
def artistOpt (e : Entry) : Option String :=
  let al := pick_artists e
  if al = [] then none else some (String.intercalate "; " al)

/-- choose_outputs: album = entry.get("album") or entry.get("album_name")
or entry.get("playlist") or entry.get("series") or "Unknown Album". -/
def albumOf (e : Entry) : String :=
  ((tstr e.album).getD ((tstr e.album_name).getD
    ((tstr e.playlist).getD ((tstr e.series).getD "Unknown Album"))))

/-- choose_outputs: title = entry.get("title") or entry.get("track") or "Unknown Title". -/
def titleOf (e : Entry) : String :=
  (tstr e.title).getD ((tstr e.track).getD "Unknown Title")

/-- choose_outputs: tracknum from track_number, then playlist_index, then
playlist_autonumber, each via str() of a truthy value. -/
def tracknumOf (e : Entry) : Option String :=
  match natTruthy e.track_number with
  | some n => some (Nat.repr n)
  | none =>
    match natTruthy e.playlist_index with
    | some n => some (Nat.repr n)
    | none =>
      match natTruthy e.playlist_autonumber with
      | some n => some (Nat.repr n)
      | none => none

/-- Python str.zfill(2): left-pad with zero digits to width two. -/
def zfill2 (s : String) : String :=
  if s.length < 2 then String.mk (List.replicate (2 - s.length) '0') ++ s else s

/-- The filename stem computed at the end of choose_outputs in
src/src/utils.py:

  if tracknum: filename = tracknum.zfill(2) + " - " + sanitize(title)
  else:
      if artist: filename = sanitize(artist) + " - " + sanitize(title)
      else: filename = sanitize(title)
-/
def chooseFilename (e : Entry) : String :=
  match tracknumOf e with
  | some tn => zfill2 tn ++ " - " ++ sanitize (titleOf e)
  | none =>
    match artistOpt e with
    | some a =>
      if a ≠ "" then sanitize a ++ " - " ++ sanitize (titleOf e)
      else sanitize (titleOf e)
    | none => sanitize (titleOf e)

/-- The album subdirectory component chosen by choose_outputs: the
sanitized album name when album layout is forced or the entry belongs to a
multi-entry context, otherwise the base directory itself (""). -/
def chooseSubdir (e : Entry) (forceAlbumLayout : Bool) : String :=
  if forceAlbumLayout then sanitize (albumOf e)
  else if e.typ = some "playlist" || e.n_entries > 1 then sanitize (albumOf e)
  else ""

/-! ## Orchestrator tally (process_url in src/src/downloader.py)

The download loop iterates `enumerate(entries, start=1)`.  A falsy entry
(None or an empty dict, modelled as `none`) is skipped without touching
either counter.  Otherwise the track URL is
`entry.get("webpage_url") or entry.get("url") or url`; if that is falsy
the track counts as failed.  Otherwise `download_with_progress` runs and
returns an exit code `rc`, which the loop binds but never consults:
success is decided solely by `final_path.exists()`.  The subprocess exit
code and the filesystem are externals, passed in as per-index oracles. -/

/-- The per-track success decision of process_url: the bound `rc` is
unused and the test is `final_path.exists()`. -/
def trackSuccess (_rc : Int) (finalExists : Bool) : Bool := finalExists

/-- The track URL fallback chain of the loop body. -/
def trackUrlOf (e : Entry) (sessionUrl : String) : String :=
  (tstr e.webpage_url).getD ((tstr e.url).getD sessionUrl)

/-- The counting loop of process_url, returning
(successful_downloads, failed_downloads).  `idx` threads the
enumerate(entries, start=1) position consumed by the oracles. -/
def processLoop (sessionUrl : String) (rcOf : Nat → Int) (existsAt : Nat → Bool) :
    Nat → List (Option Entry) → Nat × Nat
  | _, [] => (0, 0)
  | idx, oe :: rest =>
    let tail := processLoop sessionUrl rcOf existsAt (idx + 1) rest
    match oe with
    | none => tail
    | some e =>
      if trackUrlOf e sessionUrl = "" then (tail.1, tail.2 + 1)
      else if trackSuccess (rcOf idx) (existsAt idx) then (tail.1 + 1, tail.2)
      else (tail.1, tail.2 + 1)

/-- The session summary reported by create_stats_panel and the final
Complete line: total_tracks = len(entries), plus both counters. -/
structure Tally where
  total : Nat
  succeeded : Nat
  failed : Nat
deriving DecidableEq

/-- process_url tallying over a probe entry list. -/
def processUrlTally (sessionUrl : String) (rcOf : Nat → Int) (existsAt : Nat → Bool)
    (entries : List (Option Entry)) : Tally :=
  { total := entries.length
    succeeded := (processLoop sessionUrl rcOf existsAt 1 entries).1
    failed := (processLoop sessionUrl rcOf existsAt 1 entries).2 }

/-! ## Acquisition result (search_and_download in jiosaavn_downloader/downloader.py)

After the output-streaming loop, the code calls `process.wait()` and
discards its result; the returned value is:

  if downloaded_file and os.path.exists(downloaded_file): return downloaded_file
  else:
      for file in os.listdir(output_dir):
          if file.endswith(expected_ext): return os.path.join(output_dir, file)
      return None

`rc` is the discarded exit status, kept as an explicit parameter to show
that it does not influence the outcome.  `downloadedFile` is the
destination parsed from progress lines (none when no line matched or the
parsed name was empty). -/

def searchOutcome (_rc : Int) (downloadedFile : Option String)
    (pathExists : String → Bool) (dirFiles : List String)
    (fmt : String) (outputDir : String) : Option String :=
  let fallback :=
    (dirFiles.find? (fun file => file.endsWith ("." ++ fmt))).map
      (fun file => outputDir ++ "/" ++ file)
  match downloadedFile with
  | some f => if pathExists f then some f else fallback
  | none => fallback

/-! ## CLI exit behaviour (main in top-level main.py)

  if not args.url.startswith("https://www.jiosaavn.com/song/"):
      console.print(error); return          # returns None
  ...
  success = downloader.process_url(...)
  if success: return 0
  else: return 1

and the module footer runs `exit(main())`; in CPython `exit(None)` is
process status 0 and `exit(n)` is status n. -/

def validJioSaavnUrl (url : String) : Bool :=
  url.startsWith "https://www.jiosaavn.com/song/"

/-- The observable result of main: whether the downloader was constructed
and invoked at all, and the value main returned. -/
structure MainRun where
  invokedDownloader : Bool
  returned : Option Nat
deriving DecidableEq

/-- main of the top-level main.py; `processResult` abstracts the boolean
returned by JioSaavnDownloader.process_url. -/
def mainRun (url : String) (processResult : Bool) : MainRun :=
  if !(validJioSaavnUrl url) then { invokedDownloader := false, returned := none }
  else { invokedDownloader := true, returned := some (if processResult then 0 else 1) }

/-- CPython semantics of `exit(main())`: None exits with status 0. -/
def processExitCode : Option Nat → Nat
  | some n => n
  | none => 0

/-! ## Tagging engine (_add_metadata in jiosaavn_downloader/metadata.py)

In the FLAC branch the three text-field assignments are sequential and
unguarded; only the cover-art embed sits in its own try/except; `save()`
follows outside that try.  An exception from a field assignment therefore
propagates to the catch-all in add_metadata_to_file, skipping every later
step.  Failure oracles stand in for the exceptions mutagen might raise. -/

structure TagAttempt where
  fieldsApplied : List String
  coverAttempted : Bool
  coverApplied : Bool
  saveAttempted : Bool
deriving DecidableEq

def addMetadataFlac (coverPresent : Bool) (failField : String → Bool)
    (failCover : Bool) : TagAttempt :=
  if failField "title" then
    { fieldsApplied := [], coverAttempted := false, coverApplied := false, saveAttempted := false }
  else if failField "artist" then
    { fieldsApplied := ["title"], coverAttempted := false, coverApplied := false, saveAttempted := false }
  else if failField "album" then
    { fieldsApplied := ["title", "artist"], coverAttempted := false, coverApplied := false, saveAttempted := false }
  else
    { fieldsApplied := ["title", "artist", "album"]
      coverAttempted := coverPresent
      coverApplied := coverPresent && !failCover
      saveAttempted := true }

/-! ## Ogg/Opus cover embedding (_add_metadata, '.ogg'/'.opus' branch)

  picture = Picture(); picture.data = image_data; picture.type = 3
  picture.mime = 'image/jpeg'; picture.desc = 'Cover'
  picture_data = picture.write()
  encoded_data = base64.b64encode(picture_data)
  audio['metadata_block_picture'] = [encoded_data.decode('ascii')]

`Picture.write` of mutagen serializes, in big-endian 32-bit fields:
type, len(mime), mime, len(desc), desc, width, height, depth, colors,
len(data), data.  The branch never calls an attachment primitive (Vorbis
comments have none); the result is a plain text comment. -/

/-- Big-endian 32-bit serialization of a (small) natural number. -/
def be32 (n : Nat) : List Nat :=
  [n / 16777216 % 256, n / 65536 % 256, n / 256 % 256, n % 256]

/-- UTF-8 bytes of the ASCII literals used by the branch. -/
def asciiBytes (s : String) : List Nat := s.data.map (fun c => c.toNat)

/-- mutagen Picture.write for the picture built by the Ogg branch. -/
def pictureWrite (pictureType : Nat) (mime desc : String)
    (width height depth colors : Nat) (data : List Nat) : List Nat :=
  be32 pictureType ++ be32 mime.length ++ asciiBytes mime ++
  be32 (asciiBytes desc).length ++ asciiBytes desc ++
  be32 width ++ be32 height ++ be32 depth ++ be32 colors ++
  be32 data.length ++ data

def b64alphabet : String :=
  "ABCDEFGHIJKLMNOPQRSTUVWXYZabcdefghijklmnopqrstuvwxyz0123456789+/"

def b64char (i : Nat) : Char := b64alphabet.data.getD i 'A'

/-- base64.b64encode over a byte list. -/
def b64encode : List Nat → List Char
  | [] => []
  | [a] => [b64char (a / 4), b64char (a % 4 * 16), '=', '=']
  | [a, b] => [b64char (a / 4), b64char (a % 4 * 16 + b / 16), b64char (b % 16 * 4), '=']
  | a :: b :: c :: rest =>
    b64char (a / 4) :: b64char (a % 4 * 16 + b / 16) ::
      b64char (b % 16 * 4 + c / 64) :: b64char (c % 64) :: b64encode rest

def b64encodeStr (bytes : List Nat) : String := String.mk (b64encode bytes)

/-- The Vorbis-comment state written by the Ogg/Opus branch.  Native
binary attachments do not exist for this container and the code performs
none; the field records that fact in the model. -/
structure OggTags where
  comments : List (String × String)
  nativePictureAttachments : List (List Nat)
deriving DecidableEq

/-- The Ogg/Opus branch of _add_metadata.  `cover` is the bytes read from
the cover-art file when one is present; `coverReadFails` models an
exception inside the guarded cover block (swallowed by its except). -/
def tagOggOpus (songTitle songArtist songAlbum : String)
    (cover : Option (List Nat)) (coverReadFails : Bool) : OggTags :=
  let base := [("title", songTitle), ("artist", songArtist), ("album", songAlbum)]
  match cover with
  | none => { comments := base, nativePictureAttachments := [] }
  | some data =>
    if coverReadFails then { comments := base, nativePictureAttachments := [] }
    else
      { comments :=
          base ++ [("metadata_block_picture",
            b64encodeStr (pictureWrite 3 "image/jpeg" "Cover" 0 0 0 0 data))]
        nativePictureAttachments := [] }

/-! ## Lemmas about the sanitizers -/

theorem mem_subDisAux {c : Char} :
    ∀ (flag : Bool) (l : List Char), c ∈ subDisAux flag l → disallowedChar c = false := by
  intro flag l
  induction l generalizing flag with
  | nil => intro h; simp [subDisAux] at h
  | cons d cs ih =>
    intro h
    simp only [subDisAux] at h
    split at h
    · split at h
      · exact ih _ h
      · rcases List.mem_cons.1 h with rfl | h
        · decide
        · exact ih _ h
    · next hd =>
      rcases List.mem_cons.1 h with rfl | h
      · simpa using hd
      · exact ih _ h

theorem subDisAux_eq_self {l : List Char} (h : ∀ c ∈ l, disallowedChar c = false) :
    ∀ flag, subDisAux flag l = l := by
  induction l with
  | nil => intro _; rfl
  | cons d cs ih =>
    intro flag
    have hd : disallowedChar d = false := h d (List.mem_cons_self d cs)
    have tail := ih (fun c hc => h c (List.mem_cons_of_mem d hc)) false
    simp [subDisAux, hd, tail]

theorem dropWhile_idem (p : Char → Bool) (l : List Char) :
    (l.dropWhile p).dropWhile p = l.dropWhile p := by
  induction l with
  | nil => rfl
  | cons c cs ih =>
    by_cases h : p c
    · simp [List.dropWhile_cons, h, ih]
    · simp [List.dropWhile_cons, h]

theorem head_not_of_dropWhile_eq_self {p : Char → Bool} {d : Char} {ds : List Char}
    (hl : (d :: ds).dropWhile p = d :: ds) : p d = false := by
  by_contra h
  have h' : p d = true := by simpa using h
  rw [List.dropWhile_cons_of_pos h'] at hl
  have hle := (List.dropWhile_sublist (l := ds) p).length_le
  have hlen := congrArg List.length hl
  simp at hlen
  omega

theorem dropWhile_eq_self_of_prefix {p : Char → Bool} {l m : List Char}
    (hl : l.dropWhile p = l) (hm : m <+: l) : m.dropWhile p = m := by
  cases m with
  | nil => rfl
  | cons c cs =>
    obtain ⟨t, ht⟩ := hm
    cases l with
    | nil => simp at ht
    | cons d ds =>
      have hcd : c = d := by
        have := congrArg List.head? ht
        simpa using this
      subst hcd
      have : p c = false := head_not_of_dropWhile_eq_self hl
      simp [List.dropWhile_cons, this]

theorem stripChars_dropWhile (l : List Char) :
    (stripChars l).dropWhile isPySpace = stripChars l := by
  have hA : (l.dropWhile isPySpace).dropWhile isPySpace = l.dropWhile isPySpace :=
    dropWhile_idem isPySpace l
  have hsuff : ((l.dropWhile isPySpace).reverse.dropWhile isPySpace)
      <:+ (l.dropWhile isPySpace).reverse := List.dropWhile_suffix _
  have hpre := hsuff.reverse
  rw [List.reverse_reverse] at hpre
  exact dropWhile_eq_self_of_prefix hA hpre

theorem stripChars_reverse_dropWhile (l : List Char) :
    (stripChars l).reverse.dropWhile isPySpace = (stripChars l).reverse := by
  unfold stripChars
  rw [List.reverse_reverse]
  exact dropWhile_idem isPySpace _

theorem stripChars_idem (l : List Char) : stripChars (stripChars l) = stripChars l := by
  conv_lhs => rw [stripChars, stripChars_dropWhile, stripChars_reverse_dropWhile]
  exact List.reverse_reverse _

theorem mem_stripChars {c : Char} {l : List Char} (h : c ∈ stripChars l) : c ∈ l := by
  unfold stripChars at h
  rw [List.mem_reverse] at h
  have h1 := (List.dropWhile_sublist _).subset h
  rw [List.mem_reverse] at h1
  exact (List.dropWhile_sublist _).subset h1

/-- Python truthiness has no role here: this is the head-side condition
under which strip leaves a string unchanged. -/
def noLeadingSpace (l : List Char) : Bool :=
  match l.head? with
  | some c => !isPySpace c
  | none => true

def noTrailingSpace (l : List Char) : Bool := noLeadingSpace l.reverse

theorem dropWhile_eq_self_of_noLeading {l : List Char} (h : noLeadingSpace l = true) :
    l.dropWhile isPySpace = l := by
  cases l with
  | nil => rfl
  | cons c cs =>
    simp only [noLeadingSpace, List.head?_cons, Bool.not_eq_true'] at h
    simp [List.dropWhile_cons, h]

theorem stripChars_eq_self {l : List Char} (h1 : noLeadingSpace l = true)
    (h2 : noTrailingSpace l = true) : stripChars l = l := by
  unfold stripChars
  rw [dropWhile_eq_self_of_noLeading h1, dropWhile_eq_self_of_noLeading h2]
  exact List.reverse_reverse l

theorem sanitize_no_disallowed (s : String) :
    ∀ c ∈ (sanitize s).data, disallowedChar c = false := by
  intro c hc
  exact mem_subDisAux false _ (mem_stripChars hc)

theorem sanitize_eq_self {s : String} (hclean : ∀ c ∈ s.data, disallowedChar c = false)
    (h1 : noLeadingSpace s.data = true) (h2 : noTrailingSpace s.data = true) :
    sanitize s = s := by
  unfold sanitize
  rw [subDisAux_eq_self hclean false, stripChars_eq_self h1 h2]

theorem sanitize_idem (s : String) : sanitize (sanitize s) = sanitize s := by
  show String.mk (stripChars (subDisAux false (sanitize s).data)) = sanitize s
  rw [subDisAux_eq_self (sanitize_no_disallowed s) false]
  show String.mk (stripChars (stripChars (subDisAux false s.data))) = sanitize s
  rw [stripChars_idem]
  rfl

theorem safeName_no_disallowed (s : String) :
    ∀ c ∈ (safeName s).data, disallowedChar c = false := by
  intro c hc
  have := (List.mem_filter.1 hc).2
  simpa using this

theorem safeName_eq_self {s : String} (hclean : ∀ c ∈ s.data, disallowedChar c = false) :
    safeName s = s := by
  unfold safeName
  rw [List.filter_eq_self.2 (fun c hc => by simp [hclean c hc])]

theorem safeName_idem (s : String) : safeName (safeName s) = safeName s :=
  safeName_eq_self (safeName_no_disallowed s)

/-! ## Lemmas about filename stems -/

theorem append_sep_ne_empty (a b : String) : a ++ " - " ++ b ≠ "" := by
  intro h
  have hlen := congrArg String.length h
  rw [String.length_append, String.length_append] at hlen
  have h3 : (" - ").length = 3 := rfl
  rw [h3] at hlen
  simp at hlen

theorem chooseFilename_tracknum {e : Entry} {tn : String} (h : tracknumOf e = some tn) :
    chooseFilename e = zfill2 tn ++ " - " ++ sanitize (titleOf e) := by
  simp [chooseFilename, h]

theorem chooseFilename_artist {e : Entry} {a : String} (h1 : tracknumOf e = none)
    (h2 : artistOpt e = some a) (h3 : a ≠ "") :
    chooseFilename e = sanitize a ++ " - " ++ sanitize (titleOf e) := by
  simp [chooseFilename, h1, h2, h3]

theorem chooseFilename_bare {e : Entry} (h1 : tracknumOf e = none)
    (h2 : (artistOpt e).getD "" = "") :
    chooseFilename e = sanitize (titleOf e) := by
  cases ha : artistOpt e with
  | none => simp [chooseFilename, h1, ha]
  | some a =>
    rw [ha] at h2
    simp at h2
    subst h2
    simp [chooseFilename, h1, ha]

theorem chooseFilename_of_tracknum {e : Entry} {n : Nat} (h : e.track_number = some n)
    (hn : n ≠ 0) : chooseFilename e = zfill2 (Nat.repr n) ++ " - " ++ sanitize (titleOf e) := by
  have ht : tracknumOf e = some (Nat.repr n) := by
    simp [tracknumOf, natTruthy, h, hn]
  simp [chooseFilename, ht]

theorem zfill2_repr : ∀ m, m < 100 →
    (zfill2 (Nat.repr m)).data = [Nat.digitChar (m / 10), Nat.digitChar (m % 10)] := by
  decide

theorem digitChar_lt_digitChar : ∀ a, a < 10 → ∀ b, b < 10 → a < b →
    Nat.digitChar a < Nat.digitChar b := by
  decide

theorem list_lt_of_two_prefix {c₁ c₂ d₁ d₂ : Char} {r s : List Char}
    (h : c₁ < d₁ ∨ (c₁ = d₁ ∧ c₂ < d₂)) :
    List.lt (c₁ :: c₂ :: r) (d₁ :: d₂ :: s) := by
  rcases h with h | ⟨rfl, h2⟩
  · exact List.lt.head _ _ h
  · exact List.lt.tail (lt_irrefl c₁) (lt_irrefl c₁) (List.lt.head _ _ h2)

/-! ## Lemmas about the orchestrator tally -/

theorem processLoop_invariant (u : String) (rcOf : Nat → Int) (existsAt : Nat → Bool) :
    ∀ (entries : List (Option Entry)) (idx : Nat),
      (processLoop u rcOf existsAt idx entries).1 +
        (processLoop u rcOf existsAt idx entries).2 +
        entries.countP (fun oe => oe.isNone) = entries.length := by
  intro entries
  induction entries with
  | nil => intro idx; simp [processLoop]
  | cons oe rest ih =>
    intro idx
    have ihx := ih (idx + 1)
    simp only [processLoop, List.countP_cons, List.length_cons]
    cases oe with
    | none => simp; omega
    | some e =>
      by_cases hu : trackUrlOf e u = ""
      · simp [hu]; omega
      · by_cases hs : trackSuccess (rcOf idx) (existsAt idx)
        · simp [hu, hs]; omega
        · simp [hu, hs]; omega

/-! ## Lemmas about base64 and the picture block -/

theorem b64char_mem {i : Nat} (h : i < 64) : b64char i ∈ b64alphabet.data := by
  have hi : i < b64alphabet.data.length := by
    have : b64alphabet.data.length = 64 := by decide
    omega
  unfold b64char
  rw [List.getD_eq_getElem?_getD, List.getElem?_eq_getElem hi, Option.getD_some]
  exact List.getElem_mem hi

theorem b64encode_mem {bytes : List Nat} (h : ∀ x ∈ bytes, x < 256) :
    ∀ c ∈ b64encode bytes, c ∈ b64alphabet.data ∨ c = '=' := by
  induction bytes using b64encode.induct with
  | case1 => intro c hc; simp [b64encode] at hc
  | case2 a =>
    intro c hc
    have ha : a < 256 := h a (by simp)
    simp [b64encode] at hc
    rcases hc with rfl | rfl | rfl
    · exact Or.inl (b64char_mem (by omega))
    · exact Or.inl (b64char_mem (by omega))
    · exact Or.inr rfl
  | case3 a b =>
    intro c hc
    have ha : a < 256 := h a (by simp)
    have hb : b < 256 := h b (by simp)
    simp [b64encode] at hc
    rcases hc with rfl | rfl | rfl | rfl
    · exact Or.inl (b64char_mem (by omega))
    · exact Or.inl (b64char_mem (by omega))
    · exact Or.inl (b64char_mem (by omega))
    · exact Or.inr rfl
  | case4 a b cc rest ih =>
    intro c hc
    have ha : a < 256 := h a (by simp)
    have hb : b < 256 := h b (by simp)
    have hcc : cc < 256 := h cc (by simp)
    simp only [b64encode, List.mem_cons] at hc
    rcases hc with rfl | rfl | rfl | rfl | hc
    · exact Or.inl (b64char_mem (by omega))
    · exact Or.inl (b64char_mem (by omega))
    · exact Or.inl (b64char_mem (by omega))
    · exact Or.inl (b64char_mem (by omega))
    · exact ih (fun x hx => h x (by simp [hx])) c hc

theorem be32_lt (n : Nat) : ∀ x ∈ be32 n, x < 256 := by
  intro x hx
  simp [be32] at hx
  rcases hx with rfl | rfl | rfl | rfl <;> omega

theorem pictureWrite_bytes_lt {pt w hgt dep col : Nat} {mime desc : String}
    {data : List Nat} (hmime : ∀ x ∈ asciiBytes mime, x < 256)
    (hdesc : ∀ x ∈ asciiBytes desc, x < 256) (h : ∀ x ∈ data, x < 256) :
    ∀ x ∈ pictureWrite pt mime desc w hgt dep col data, x < 256 := by
  intro x hx
  simp only [pictureWrite, List.append_assoc, List.mem_append] at hx
  rcases hx with hx | hx | hx | hx | hx | hx | hx | hx | hx | hx | hx
  · exact be32_lt _ x hx
  · exact be32_lt _ x hx
  · exact hmime x hx
  · exact be32_lt _ x hx
  · exact hdesc x hx
  · exact be32_lt _ x hx
  · exact be32_lt _ x hx
  · exact be32_lt _ x hx
  · exact be32_lt _ x hx
  · exact be32_lt _ x hx
  · exact h x hx

/-! ## Concrete entries used by witnesses and counterexamples -/

/-- A well-formed probe entry of a playlist. -/
def probeTrack : Entry := { title := some "T", webpage_url := some "https://t" }

/-- A five-entry playlist probe whose third entry is empty/null. -/
def probe5 : List (Option Entry) :=
  [some probeTrack, some probeTrack, none, some probeTrack, some probeTrack]

/-- Entry with track number 3 (spec example for the zero-padded stem). -/
def tn3Entry : Entry := { track_number := some 3, title := some "Song" }

/-- Entry with artist Al, title Song and no track number (spec example). -/
def alEntry : Entry := { artist := some "Al", title := some "Song" }

def track2Entry : Entry := { track_number := some 2, title := some "B" }

def track10Entry : Entry := { track_number := some 10, title := some "A" }

def track19Entry : Entry := { track_number := some 19, title := some "A" }

def track100Entry : Entry := { track_number := some 100, title := some "B" }

/-- Entry whose artists list joins to the empty string. -/
def emptyArtistEntry : Entry := { artists := some [ArtistItem.astr ""], title := some "Song" }

/-- Entry with an empty artist join and a whitespace-only title. -/
def wsTitleEntry : Entry := { artists := some [ArtistItem.astr ""], title := some "   " }

/-- Entry with an empty artist join and a title that survives sanitization. -/
def cleanTitleEntry : Entry := { artists := some [ArtistItem.astr ""], title := some "Tune" }

/-! ## Claims -/

/-- C1 (amended): in every process_url session the reported total equals
the number of probe entries, and equals succeeded plus failed plus the
number of empty/null entries, which are skipped without touching either
counter. -/
theorem claim_C1_tally : ∀ (url : String) (rcOf : Nat → Int) (existsAt : Nat → Bool)
    (entries : List (Option Entry)),
    (processUrlTally url rcOf existsAt entries).total = entries.length ∧
    (processUrlTally url rcOf existsAt entries).total =
      (processUrlTally url rcOf existsAt entries).succeeded +
        (processUrlTally url rcOf existsAt entries).failed +
        entries.countP (fun oe => oe.isNone) := by
  intro url rcOf existsAt entries
  refine ⟨rfl, ?_⟩
  have h := processLoop_invariant url rcOf existsAt entries 1
  simp only [processUrlTally]
  omega

/-- C1 witness: the tally invariant evaluated on the five-entry probe. -/
theorem claim_C1_tally_witness :
    (processUrlTally "https://s" (fun _ => 0) (fun _ => true) probe5).total =
      (processUrlTally "https://s" (fun _ => 0) (fun _ => true) probe5).succeeded +
        (processUrlTally "https://s" (fun _ => 0) (fun _ => true) probe5).failed +
        probe5.countP (fun oe => oe.isNone) :=
  (claim_C1_tally "https://s" (fun _ => 0) (fun _ => true) probe5).2

/-- C1 counterexample: on the 5-track probe with an empty third entry
(all downloads succeeding), total is 5 but succeeded + failed is 4, so
the reported total does not equal succeeded plus failed. -/
theorem claim_C1_counterexample :
    (processUrlTally "https://playlist" (fun _ => 0) (fun _ => true) probe5).total ≠
      (processUrlTally "https://playlist" (fun _ => 0) (fun _ => true) probe5).succeeded +
        (processUrlTally "https://playlist" (fun _ => 0) (fun _ => true) probe5).failed := by
  decide

/-- C2 (amended): the subprocess exit code is ignored in both
implementations; acquisition failure is recorded exactly when no
destination file is found (the parsed destination is absent or does not
exist, and no file with the expected extension sits in the output
directory), and per-track success in process_url is exactly the
existence of the final path. -/
theorem claim_C2_acquisition : ∀ (rc rc' : Int) (downloadedFile : Option String)
    (pathExists : String → Bool) (dirFiles : List String) (fmt outputDir : String)
    (finalExists : Bool),
    searchOutcome rc downloadedFile pathExists dirFiles fmt outputDir =
      searchOutcome rc' downloadedFile pathExists dirFiles fmt outputDir ∧
    (searchOutcome rc downloadedFile pathExists dirFiles fmt outputDir = none ↔
      (∀ f, downloadedFile = some f → pathExists f = false) ∧
        ∀ f ∈ dirFiles, f.endsWith ("." ++ fmt) = false) ∧
    trackSuccess rc finalExists = finalExists := by
  intro rc rc' df pe files fmt dir fe
  refine ⟨rfl, ?_, rfl⟩
  cases df with
  | none =>
    simp [searchOutcome, List.find?_eq_none]
  | some f =>
    by_cases hp : pe f = true
    · simp [searchOutcome, hp]
    · have hp' : pe f = false := by simpa using hp
      simp [searchOutcome, hp', List.find?_eq_none]

/-- C2 witness: the outcome is unchanged under a different exit code. -/
theorem claim_C2_acquisition_witness :
    searchOutcome 0 none (fun _ => false) ["x.mp3"] "flac" "out" =
      searchOutcome 7 none (fun _ => false) ["x.mp3"] "flac" "out" :=
  (claim_C2_acquisition 0 7 none (fun _ => false) ["x.mp3"] "flac" "out" false).1

/-- C2 counterexample: with exit code 1 (non-zero) and the destination
file present, both implementations record success, contradicting the
claim that a non-zero exit code marks the track failed. -/
theorem claim_C2_counterexample :
    (searchOutcome 1 (some "song.flac") (fun _ => true) [] "flac" "out").isSome = true ∧
    trackSuccess 1 true = true := by
  decide

/-- C3 (amended): an invalid URL is rejected before the downloader is
ever constructed or invoked (the result does not depend on the download
outcome), but main returns None there and exit(None) is process status 0;
on a valid URL the exit status is 0 on success and 1 on failure. -/
theorem claim_C3_exit : ∀ (url : String) (r r' : Bool),
    (validJioSaavnUrl url = false →
      mainRun url r = mainRun url r' ∧
      (mainRun url r).invokedDownloader = false ∧
      processExitCode (mainRun url r).returned = 0) ∧
    (validJioSaavnUrl url = true →
      (mainRun url r).invokedDownloader = true ∧
      processExitCode (mainRun url r).returned = (if r then 0 else 1)) := by
  intro url r r'
  constructor
  · intro h
    simp [mainRun, h, processExitCode]
  · intro h
    simp [mainRun, h, processExitCode]

/-- C3 witness: the invalid-URL branch evaluated on a concrete URL. -/
theorem claim_C3_exit_witness :
    (mainRun "ftp://example" true).invokedDownloader = false ∧
    processExitCode (mainRun "ftp://example" true).returned = 0 :=
  ⟨((claim_C3_exit "ftp://example" true false).1 (by decide)).2.1,
   ((claim_C3_exit "ftp://example" true false).1 (by decide)).2.2⟩

/-- C3 counterexample: an invalid URL terminates the process with exit
status 0, not the non-zero status the claim requires. -/
theorem claim_C3_counterexample :
    validJioSaavnUrl "https://example.com/notasong" = false ∧
    processExitCode (mainRun "https://example.com/notasong" true).returned = 0 := by
  decide

/-- C4 (amended): the planner produces a non-empty stem whenever a track
number is present, or the artist string is non-empty, or the sanitized
title is non-empty; the bare-title fallback does not guard against a
title whose sanitization is empty. -/
theorem claim_C4_stem : ∀ e : Entry,
    (tracknumOf e ≠ none ∨ (artistOpt e).getD "" ≠ "" ∨ sanitize (titleOf e) ≠ "") →
    chooseFilename e ≠ "" := by
  intro e h
  cases htn : tracknumOf e with
  | some tn =>
    rw [chooseFilename_tracknum htn]
    exact append_sep_ne_empty _ _
  | none =>
    by_cases ha : (artistOpt e).getD "" = ""
    · rw [chooseFilename_bare htn ha]
      rcases h with h | h | h
      · exact absurd htn h
      · exact absurd ha h
      · exact h
    · cases hao : artistOpt e with
      | none => rw [hao] at ha; simp at ha
      | some a =>
        rw [hao] at ha
        simp at ha
        rw [chooseFilename_artist htn hao ha]
        exact append_sep_ne_empty _ _

/-- C4 witness: an entry with an empty artist join but a clean title
still gets a non-empty stem via the bare-title fallback. -/
theorem claim_C4_stem_witness : chooseFilename cleanTitleEntry ≠ "" :=
  claim_C4_stem cleanTitleEntry (Or.inr (Or.inr (by decide)))

/-- C4 counterexample: a whitespace-only title together with an empty
artist join produces an empty stem. -/
theorem claim_C4_counterexample : chooseFilename wsTitleEntry = "" := by
  decide

/-- C5 (amended): both sanitizers remove every disallowed character and
are idempotent; the removal-based sanitizer is a no-op on any clean
string, while the strip-based sanitize is a no-op only on clean strings
with no leading or trailing whitespace. -/
theorem claim_C5_sanitize : ∀ s : String,
    ((sanitize s).data.all (fun c => !disallowedChar c) = true) ∧
    (s.data.all (fun c => !disallowedChar c) = true →
      noLeadingSpace s.data = true → noTrailingSpace s.data = true →
      sanitize s = s) ∧
    sanitize (sanitize s) = sanitize s ∧
    ((safeName s).data.all (fun c => !disallowedChar c) = true) ∧
    (s.data.all (fun c => !disallowedChar c) = true → safeName s = s) ∧
    safeName (safeName s) = safeName s := by
  intro s
  refine ⟨?_, ?_, sanitize_idem s, ?_, ?_, safeName_idem s⟩
  · rw [List.all_eq_true]
    intro c hc
    simp [sanitize_no_disallowed s c hc]
  · intro hclean h1 h2
    rw [List.all_eq_true] at hclean
    exact sanitize_eq_self (fun c hc => by simpa using hclean c hc) h1 h2
  · rw [List.all_eq_true]
    intro c hc
    simp [safeName_no_disallowed s c hc]
  · intro hclean
    rw [List.all_eq_true] at hclean
    exact safeName_eq_self (fun c hc => by simpa using hclean c hc)

/-- C5 witness: the no-op branches evaluated on a clean trimmed string. -/
theorem claim_C5_sanitize_witness : sanitize "a b" = "a b" ∧ safeName "a b" = "a b" :=
  ⟨(claim_C5_sanitize "a b").2.1 (by decide) (by decide) (by decide),
   (claim_C5_sanitize "a b").2.2.2.2.1 (by decide)⟩

/-- C5 counterexample: the string " a " contains no disallowed character,
yet sanitize is not a no-op on it because of the trailing strip. -/
theorem claim_C5_counterexample :
    (" a " : String).data.all (fun c => !disallowedChar c) = true ∧
    sanitize " a " ≠ " a " := by
  decide

/-- C6 (confirmed): the filename stem is the zero-padded track number
followed by " - " and the sanitized title when a track number is present;
otherwise the sanitized artist followed by " - " and the sanitized title
when the artist string is non-empty; otherwise the sanitized title alone.
In particular track number 3 yields a stem starting with "03 - ", and
artist Al with title Song and no track number yields "Al - Song". -/
theorem claim_C6_stem :
    (∀ (e : Entry) (tn : String), tracknumOf e = some tn →
      chooseFilename e = zfill2 tn ++ " - " ++ sanitize (titleOf e)) ∧
    (∀ (e : Entry) (a : String), tracknumOf e = none → artistOpt e = some a → a ≠ "" →
      chooseFilename e = sanitize a ++ " - " ++ sanitize (titleOf e)) ∧
    (∀ e : Entry, tracknumOf e = none → (artistOpt e).getD "" = "" →
      chooseFilename e = sanitize (titleOf e)) ∧
    ("03 - " : String).data.isPrefixOf (chooseFilename tn3Entry).data = true ∧
    chooseFilename alEntry = "Al - Song" := by
  refine ⟨?_, ?_, ?_, by decide, by decide⟩
  · intro e tn h
    exact chooseFilename_tracknum h
  · intro e a h1 h2 h3
    exact chooseFilename_artist h1 h2 h3
  · intro e h1 h2
    exact chooseFilename_bare h1 h2

/-- C6 witness: the track-number branch evaluated at track number 3. -/
theorem claim_C6_stem_witness :
    chooseFilename tn3Entry = zfill2 "3" ++ " - " ++ sanitize (titleOf tn3Entry) :=
  claim_C6_stem.1 tn3Entry "3" (by decide)

/-- C7 (amended): within an album directory the track-number-prefixed
stems sort lexicographically (comparing character sequences) by numeric
track number as long as both numbers fit the two-digit zero-padding,
i.e. are at most 99. -/
theorem claim_C7_order : ∀ (m n : Nat) (e₁ e₂ : Entry),
    e₁.track_number = some m → e₂.track_number = some n →
    1 ≤ m → m < n → n ≤ 99 →
    List.lt (chooseFilename e₁).data (chooseFilename e₂).data := by
  intro m n e₁ e₂ h1 h2 hm hmn hn
  rw [chooseFilename_of_tracknum h1 (by omega), chooseFilename_of_tracknum h2 (by omega)]
  have d1 : (zfill2 (Nat.repr m) ++ " - " ++ sanitize (titleOf e₁)).data =
      Nat.digitChar (m / 10) :: Nat.digitChar (m % 10) ::
        ((" - ").data ++ (sanitize (titleOf e₁)).data) := by
    rw [String.data_append, String.data_append, zfill2_repr m (by omega)]
    simp
  have d2 : (zfill2 (Nat.repr n) ++ " - " ++ sanitize (titleOf e₂)).data =
      Nat.digitChar (n / 10) :: Nat.digitChar (n % 10) ::
        ((" - ").data ++ (sanitize (titleOf e₂)).data) := by
    rw [String.data_append, String.data_append, zfill2_repr n (by omega)]
    simp
  rw [d1, d2]
  apply list_lt_of_two_prefix
  have hd : m / 10 < n / 10 ∨ (m / 10 = n / 10 ∧ m % 10 < n % 10) := by omega
  rcases hd with hd | ⟨heq, hd⟩
  · exact Or.inl (digitChar_lt_digitChar (m / 10) (by omega) (n / 10) (by omega) hd)
  · exact Or.inr ⟨by rw [heq],
      digitChar_lt_digitChar (m % 10) (by omega) (n % 10) (by omega) hd⟩

/-- C7 witness: tracks 2 and 10 of an album sort correctly. -/
theorem claim_C7_order_witness :
    List.lt (chooseFilename track2Entry).data (chooseFilename track10Entry).data :=
  claim_C7_order 2 10 track2Entry track10Entry rfl rfl (by decide) (by decide) (by decide)

/-- C7 counterexample: tracks 19 and 100 have 19 < 100 but the stem of
track 19 does not sort before the stem of track 100 ("19 - A" is
lexicographically greater than "100 - B"). -/
theorem claim_C7_counterexample :
    ¬ ((chooseFilename track19Entry).data < (chooseFilename track100Entry).data) := by
  decide

/-- C8 (amended): only the cover-art embed is individually guarded in
the tagging engine: when every text-field write succeeds, all three
fields are applied and save() is attempted regardless of a cover-art
failure; but a text-field write failure propagates, skipping both the
cover-art embed and the save. -/
theorem claim_C8_tagging : ∀ (coverPresent failCover : Bool) (failField : String → Bool),
    ((∀ f, failField f = false) →
      (addMetadataFlac coverPresent failField failCover).fieldsApplied =
        ["title", "artist", "album"] ∧
      (addMetadataFlac coverPresent failField failCover).coverAttempted = coverPresent ∧
      (addMetadataFlac coverPresent failField failCover).saveAttempted = true) ∧
    ((failField "title" = true ∨ failField "artist" = true ∨ failField "album" = true) →
      (addMetadataFlac coverPresent failField failCover).coverAttempted = false ∧
      (addMetadataFlac coverPresent failField failCover).saveAttempted = false) := by
  intro cp fc ff
  constructor
  · intro h
    simp [addMetadataFlac, h]
  · intro h
    by_cases h1 : ff "title"
    · simp [addMetadataFlac, h1]
    · by_cases h2 : ff "artist"
      · simp [addMetadataFlac, h1, h2]
      · by_cases h3 : ff "album"
        · simp [addMetadataFlac, h1, h2, h3]
        · rcases h with h | h | h <;> simp_all

/-- C8 witness: with no text-field failure and a failing cover embed,
all text fields are applied and save is still attempted. -/
theorem claim_C8_tagging_witness :
    (addMetadataFlac true (fun _ => false) true).fieldsApplied = ["title", "artist", "album"] ∧
    (addMetadataFlac true (fun _ => false) true).coverAttempted = true ∧
    (addMetadataFlac true (fun _ => false) true).saveAttempted = true :=
  (claim_C8_tagging true true (fun _ => false)).1 (fun _ => rfl)

/-- C8 counterexample: a failing title write with cover art available
skips the cover embed and the save, contradicting the claimed
independence and the claim that save is attempted in every case. -/
theorem claim_C8_counterexample :
    (addMetadataFlac true (fun f => f == "title") false).coverAttempted = false ∧
    (addMetadataFlac true (fun f => f == "title") false).saveAttempted = false := by
  decide

/-- C9 (confirmed): the Ogg/Opus branch stores the cover as the comment
metadata_block_picture whose value is the base64 encoding of the
serialized picture block (which embeds its own length-prefixed data),
the stored value consists only of base64 text characters, and no native
binary attachment is produced. -/
theorem claim_C9_ogg : ∀ (songTitle songArtist songAlbum : String) (data : List Nat),
    (∀ x ∈ data, x < 256) →
    (tagOggOpus songTitle songArtist songAlbum (some data) false).comments =
      [("title", songTitle), ("artist", songArtist), ("album", songAlbum),
       ("metadata_block_picture",
         b64encodeStr (pictureWrite 3 "image/jpeg" "Cover" 0 0 0 0 data))] ∧
    (tagOggOpus songTitle songArtist songAlbum (some data) false).nativePictureAttachments
      = [] ∧
    (∀ c ∈ (b64encodeStr (pictureWrite 3 "image/jpeg" "Cover" 0 0 0 0 data)).data,
      c ∈ b64alphabet.data ∨ c = '=') ∧
    ∃ pre, pictureWrite 3 "image/jpeg" "Cover" 0 0 0 0 data =
      pre ++ (be32 data.length ++ data) := by
  intro t a alb data h
  refine ⟨rfl, rfl, ?_, ?_⟩
  · intro c hc
    exact b64encode_mem
      (pictureWrite_bytes_lt (by decide) (by decide) h) c hc
  · refine ⟨be32 3 ++ be32 (String.length "image/jpeg") ++ asciiBytes "image/jpeg" ++
      be32 (asciiBytes "Cover").length ++ asciiBytes "Cover" ++
      be32 0 ++ be32 0 ++ be32 0 ++ be32 0, ?_⟩
    simp [pictureWrite, List.append_assoc]

/-- C9 witness: the comment written for the three-byte JPEG magic. -/
theorem claim_C9_ogg_witness :
    (tagOggOpus "T" "A" "Al" (some [255, 216, 255]) false).comments =
      [("title", "T"), ("artist", "A"), ("album", "Al"),
       ("metadata_block_picture",
         b64encodeStr (pictureWrite 3 "image/jpeg" "Cover" 0 0 0 0 [255, 216, 255]))] :=
  (claim_C9_ogg "T" "A" "Al" [255, 216, 255] (by decide)).1

/-- C10 (amended): pick_artists always returns a non-empty list, so the
artist string in choose_outputs is never None; but because the joined
artist string can be empty (for example artists equal to a single empty
string), the bare-title branch remains reachable: the Artist - Title
form is guaranteed only when the joined artist string is non-empty. -/
theorem claim_C10_artists : ∀ e : Entry,
    pick_artists e ≠ [] ∧
    (artistOpt e).isSome = true ∧
    ((artistOpt e).getD "" ≠ "" → tracknumOf e = none →
      chooseFilename e =
        sanitize ((artistOpt e).getD "") ++ " - " ++ sanitize (titleOf e)) := by
  intro e
  have hne : pick_artists e ≠ [] := by
    unfold pick_artists
    cases tstr e.artist with
    | some a => simp
    | none =>
      cases e.artists with
      | some items =>
        by_cases hi : items = []
        · simp only [hi, if_true]
          cases tstr e.creator <;> simp
        · simp [hi]
      | none => cases tstr e.creator <;> simp
  refine ⟨hne, ?_, ?_⟩
  · simp [artistOpt, hne]
  · intro ha htn
    have hsome : artistOpt e = some (String.intercalate "; " (pick_artists e)) := by
      simp [artistOpt, hne]
    rw [hsome] at ha ⊢
    rw [Option.getD_some] at ha ⊢
    exact chooseFilename_artist htn hsome ha

/-- C10 witness: the Artist - Title form for the Al entry. -/
theorem claim_C10_artists_witness :
    chooseFilename alEntry =
      sanitize ((artistOpt alEntry).getD "") ++ " - " ++ sanitize (titleOf alEntry) :=
  (claim_C10_artists alEntry).2.2 (by decide) (by decide)

/-- C10 counterexample: an artists list holding one empty string gives a
non-None but empty artist string, and the stem falls back to the bare
title instead of the Artist - Title form. -/
theorem claim_C10_counterexample :
    artistOpt emptyArtistEntry = some "" ∧
    tracknumOf emptyArtistEntry = none ∧
    chooseFilename emptyArtistEntry = "Song" ∧
    chooseFilename emptyArtistEntry ≠
      sanitize ((artistOpt emptyArtistEntry).getD "") ++ " - " ++
        sanitize (titleOf emptyArtistEntry) := by
  decide

end JioSaavn
